import Mathlib

/-!
Verification of the stateful TCP connection tracker in
src/TCP_Analyzer/tcp_analyzer.cpp.

The development shallowly embeds the tracker's data model and operations:
the `TcpState` enumeration (lines 64-75), the `ConnectionID` flow key and its
canonicalization `make_canonical_id` (lines 106-172), the global
`connection_tracker` map (line 188, modelled as a function table), the
priority-ordered state machine `process_tcp_packet` (lines 238-456), and the
per-frame header extraction performed by `main` (lines 540-595), modelled at
the byte level for the little-endian Linux platform the program targets.
-/

namespace TcpAnalyzer

/-- TCP connection states, mirroring `enum TcpState` at
tcp_analyzer.cpp lines 64-75. -/
inductive TcpState where
  | CLOSED
  | SYN_SENT
  | SYN_RECEIVED
  | ESTABLISHED
  | FIN_WAIT_1
  | FIN_WAIT_2
  | CLOSE_WAIT
  | LAST_ACK
  | TIME_WAIT
  | CLOSING
deriving DecidableEq

/-- Connection identifier, mirroring `struct ConnectionID` at
tcp_analyzer.cpp lines 106-119.  The ip fields hold the 32-bit values
exactly as the program holds them in memory and the port fields hold
16-bit values; both are represented as `Nat` since the program only
compares them. -/
structure ConnectionID where
  src_ip : Nat
  dst_ip : Nat
  src_port : Nat
  dst_port : Nat
deriving DecidableEq

/-- Canonicalization of a directional endpoint pair, mirroring
`make_canonical_id` at tcp_analyzer.cpp lines 139-172: the smaller ip
(ties broken by the smaller port) becomes the `src` side. -/
def make_canonical_id (ip1 : Nat) (port1 : Nat) (ip2 : Nat) (port2 : Nat) :
    ConnectionID :=
  if ip1 < ip2 then
    { src_ip := ip1, dst_ip := ip2, src_port := port1, dst_port := port2 }
  else if ip2 < ip1 then
    { src_ip := ip2, dst_ip := ip1, src_port := port2, dst_port := port1 }
  else if port1 < port2 then
    { src_ip := ip1, dst_ip := ip2, src_port := port1, dst_port := port2 }
  else
    { src_ip := ip2, dst_ip := ip1, src_port := port2, dst_port := port1 }

/-- TCP flag bits read by the tracker from `struct tcphdr`
(field order as in the little-endian flag byte: fin, syn, rst, psh,
ack, urg). -/
structure TcpFlags where
  fin : Bool
  syn : Bool
  rst : Bool
  psh : Bool
  ack : Bool
  urg : Bool
deriving DecidableEq

/-- Reasons attached to the transition events the tracker reports, one
per `printf` branch of `process_tcp_packet`. -/
inductive Reason where
  | Syn
  | SynAck
  | Ack
  | Fin
  | Rst
  | Data
deriving DecidableEq

/-- The connection tracking table `std::map<ConnectionID, TcpState>`
(tcp_analyzer.cpp line 188), modelled by its lookup function: absent
keys map to `none`. -/
def Table : Type := ConnectionID → Option TcpState

/-- The empty table (program start). -/
def Table.empty : Table := fun _ => none

/-- `connection_tracker.find(key)` (lines 245-248). -/
def Table.find (t : Table) (k : ConnectionID) : Option TcpState := t k

/-- `connection_tracker[key] = s` (e.g. line 277). -/
def Table.set (t : Table) (k : ConnectionID) (s : TcpState) : Table :=
  fun j => if j = k then some s else t j

/-- `connection_tracker.erase(key)` (e.g. line 260). -/
def Table.erase (t : Table) (k : ConnectionID) : Table :=
  fun j => if j = k then none else t j

/-- The state the tracker works with: the stored state, defaulting to
`CLOSED` for an absent key (tcp_analyzer.cpp lines 244-248). -/
def currentState (t : Table) (k : ConnectionID) : TcpState :=
  match t.find k with
  | some s => s
  | none => TcpState.CLOSED

/-- One step of the TCP state machine, mirroring `process_tcp_packet`
at tcp_analyzer.cpp lines 238-456.  The function is the exact
priority-ordered if/return chain of the source: the first matching
condition updates the table and reports one event; if nothing matches
the packet is a no-op.  `data_len` is the C `int` payload length and
may be negative. -/
def process_tcp_packet (t : Table) (key : ConnectionID) (tcp : TcpFlags)
    (data_len : Int) : Table × Option Reason :=
  let current_state := currentState t key
  if tcp.rst = true then
    (t.erase key, some Reason.Rst)
  else if current_state = TcpState.CLOSED ∧ tcp.syn = true ∧ tcp.ack = false then
    (t.set key TcpState.SYN_SENT, some Reason.Syn)
  else if current_state = TcpState.SYN_SENT ∧ tcp.syn = true ∧ tcp.ack = true then
    (t.set key TcpState.ESTABLISHED, some Reason.SynAck)
  else if current_state = TcpState.SYN_SENT ∧ tcp.ack = true ∧ tcp.syn = false ∧
      tcp.fin = false then
    (t.set key TcpState.ESTABLISHED, some Reason.Ack)
  else if current_state = TcpState.ESTABLISHED ∧ data_len > 0 then
    (t, some Reason.Data)
  else if current_state = TcpState.ESTABLISHED ∧ tcp.fin = true then
    (t.set key TcpState.FIN_WAIT_1, some Reason.Fin)
  else if current_state = TcpState.FIN_WAIT_1 ∧ tcp.ack = true ∧ tcp.fin = false then
    (t.set key TcpState.FIN_WAIT_2, some Reason.Ack)
  else if current_state = TcpState.FIN_WAIT_1 ∧ tcp.fin = true then
    (t.set key TcpState.CLOSING, some Reason.Fin)
  else if current_state = TcpState.FIN_WAIT_2 ∧ tcp.fin = true then
    (t.set key TcpState.TIME_WAIT, some Reason.Fin)
  else if current_state = TcpState.TIME_WAIT ∧ tcp.ack = true then
    (t.erase key, some Reason.Ack)
  else if current_state = TcpState.CLOSING ∧ tcp.ack = true then
    (t.erase key, some Reason.Ack)
  else if current_state = TcpState.ESTABLISHED ∧ tcp.fin = true then
    (t.set key TcpState.CLOSE_WAIT, some Reason.Fin)
  else if current_state = TcpState.CLOSE_WAIT ∧ tcp.fin = true then
    (t.set key TcpState.LAST_ACK, some Reason.Fin)
  else if current_state = TcpState.LAST_ACK ∧ tcp.ack = true then
    (t.erase key, some Reason.Ack)
  else
    (t, none)

/-- One observed packet as the state machine sees it: the canonical
key, the flag bits and the payload length. -/
structure Packet where
  key : ConnectionID
  flags : TcpFlags
  data_len : Int

/-- Driving the state machine over a packet sequence, collecting the
reported events in order (the capture loop of `main`, lines 531-596,
with one call to `process_tcp_packet` per frame). -/
def runPackets : Table → List Packet → Table × List Reason
  | t, [] => (t, [])
  | t, p :: ps =>
    let step := process_tcp_packet t p.key p.flags p.data_len
    let rest := runPackets step.1 ps
    (rest.1, step.2.toList ++ rest.2)

/-- The disjunction of every transition-rule condition of
`process_tcp_packet` (including the unreachable duplicate
`ESTABLISHED` + fin rule, whose condition coincides with the earlier
one): a packet is a no-op exactly when none of these holds. -/
def rules_match (s : TcpState) (tcp : TcpFlags) (data_len : Int) : Prop :=
  tcp.rst = true ∨
  (s = TcpState.CLOSED ∧ tcp.syn = true ∧ tcp.ack = false) ∨
  (s = TcpState.SYN_SENT ∧ tcp.syn = true ∧ tcp.ack = true) ∨
  (s = TcpState.SYN_SENT ∧ tcp.ack = true ∧ tcp.syn = false ∧ tcp.fin = false) ∨
  (s = TcpState.ESTABLISHED ∧ data_len > 0) ∨
  (s = TcpState.ESTABLISHED ∧ tcp.fin = true) ∨
  (s = TcpState.FIN_WAIT_1 ∧ tcp.ack = true ∧ tcp.fin = false) ∨
  (s = TcpState.FIN_WAIT_1 ∧ tcp.fin = true) ∨
  (s = TcpState.FIN_WAIT_2 ∧ tcp.fin = true) ∨
  (s = TcpState.TIME_WAIT ∧ tcp.ack = true) ∨
  (s = TcpState.CLOSING ∧ tcp.ack = true) ∨
  (s = TcpState.CLOSE_WAIT ∧ tcp.fin = true) ∨
  (s = TcpState.LAST_ACK ∧ tcp.ack = true)

instance (s : TcpState) (tcp : TcpFlags) (d : Int) :
    Decidable (rules_match s tcp d) := by
  unfold rules_match
  infer_instance

/-- Flags of a pure SYN packet. -/
def synF : TcpFlags :=
  { fin := false, syn := true, rst := false, psh := false, ack := false, urg := false }

/-- Flags of a SYN+ACK packet. -/
def synAckF : TcpFlags :=
  { fin := false, syn := true, rst := false, psh := false, ack := true, urg := false }

/-- Flags of a pure ACK packet. -/
def ackF : TcpFlags :=
  { fin := false, syn := false, rst := false, psh := false, ack := true, urg := false }

/-- Flags of a pure FIN packet. -/
def finF : TcpFlags :=
  { fin := true, syn := false, rst := false, psh := false, ack := false, urg := false }

/-- Flags of a pure RST packet. -/
def rstF : TcpFlags :=
  { fin := false, syn := false, rst := true, psh := false, ack := false, urg := false }

/-- The 32-bit value the program holds for the dotted quad a.b.c.d:
`ip->saddr` is read by a struct cast on a little-endian host, so the
first wire byte lands in the low-order position (network byte order,
never converted by the program). -/
def ipv4_net (a b c d : Nat) : Nat :=
  a + 256 * b + 65536 * c + 16777216 * d

/-- The address 10.0.0.1 as the program holds it. -/
def ipA : Nat := ipv4_net 10 0 0 1

/-- The address 192.168.1.100 as the program holds it. -/
def ipB : Nat := ipv4_net 192 168 1 100

/-- The canonical key of the flow 192.168.1.100:8080 <-> 10.0.0.1:80. -/
def sampleKey : ConnectionID := make_canonical_id ipB 8080 ipA 80

/-- The 7-packet happy-path control sequence on one flow:
SYN, SYN/ACK, ACK, FIN, ACK, FIN, ACK, all with rst clear and zero
payload. -/
def happyPath (key : ConnectionID) : List Packet :=
  [⟨key, synF, 0⟩, ⟨key, synAckF, 0⟩, ⟨key, ackF, 0⟩, ⟨key, finF, 0⟩,
   ⟨key, ackF, 0⟩, ⟨key, finF, 0⟩, ⟨key, ackF, 0⟩]

/-- One byte of the receive buffer (`unsigned char buffer[65536]`,
tcp_analyzer.cpp line 526); reads beyond the modelled content give 0. -/
def byteAt (buf : List Nat) (i : Nat) : Nat := buf.getD i 0

/-- A 16-bit field read by struct cast on the little-endian host and
then passed through `ntohs`: the result is the big-endian (wire)
interpretation of the two bytes. -/
def readBE16 (buf : List Nat) (i : Nat) : Nat :=
  256 * byteAt buf i + byteAt buf (i + 1)

/-- A 32-bit field read by struct cast on the little-endian host and
never byte-swapped (`ip->saddr`, `ip->daddr`): the first wire byte is
the low-order byte of the value. -/
def readLE32 (buf : List Nat) (i : Nat) : Nat :=
  byteAt buf i + 256 * byteAt buf (i + 1) + 65536 * byteAt buf (i + 2) +
    16777216 * byteAt buf (i + 3)

/-- The header fields `main` extracts from a frame and hands to the
canonicalizer and the state machine (tcp_analyzer.cpp lines 563-588):
ip addresses as the program holds them (network byte order, lines
567-568), ports after the `ntohs` applied at every use site (lines
587-588), the flag bits, and the C `int` payload length
`ip_total_len - ip_header_len - tcp_header_len` (line 580). -/
structure DecodedFrame where
  src_ip : Nat
  dst_ip : Nat
  src_port : Nat
  dst_port : Nat
  flags : TcpFlags
  data_len : Int
deriving DecidableEq

/-- Per-frame header extraction of `main` (tcp_analyzer.cpp lines
540-580): skip (`none`) unless the EtherType is 0x0800 and the IPv4
protocol is 6; otherwise read the fields.  Exactly as in the source,
no length whatsoever is validated: every field is read at its struct
offset regardless of how many bytes were actually received.  Bitfield
positions follow the little-endian Linux layout: `ihl` is the low
nibble of the first IP byte, `doff` the high nibble of TCP byte 12,
and the flag byte is TCP byte 13 with fin at bit 0 through urg at
bit 5. -/
def decode_frame (buf : List Nat) : Option DecodedFrame :=
  if readBE16 buf 12 ≠ 2048 then none
  else if byteAt buf 23 ≠ 6 then none
  else
    let ihl := byteAt buf 14 % 16
    let ip_header_len := ihl * 4
    let o := 14 + ip_header_len
    let tcp_header_len := byteAt buf (o + 12) / 16 * 4
    let fb := byteAt buf (o + 13)
    some
      { src_ip := readLE32 buf 26
        dst_ip := readLE32 buf 30
        src_port := readBE16 buf o
        dst_port := readBE16 buf (o + 2)
        flags :=
          { fin := fb.testBit 0, syn := fb.testBit 1, rst := fb.testBit 2,
            psh := fb.testBit 3, ack := fb.testBit 4, urg := fb.testBit 5 }
        data_len := (readBE16 buf 16 : Int) - (ip_header_len : Int) -
          (tcp_header_len : Int) }

/-- One iteration of the capture loop of `main` (tcp_analyzer.cpp
lines 531-596) on the current buffer content: decode, canonicalize,
run the state machine.  The received length `packet_size` returned by
`recv` is taken as an argument but, exactly as in the source, it is
never consulted while parsing. -/
def handle_frame (t : Table) (buf : List Nat) (_packet_size : Int) :
    Table × Option Reason :=
  match decode_frame buf with
  | none => (t, none)
  | some d =>
    process_tcp_packet t (make_canonical_id d.src_ip d.src_port d.dst_ip d.dst_port)
      d.flags d.data_len

/-- The TCP flag byte assembled from flag bits (wire layout: fin at
bit 0 through urg at bit 5). -/
def flagsByte (f : TcpFlags) : Nat :=
  (cond f.fin 1 0) + 2 * (cond f.syn 1 0) + 4 * (cond f.rst 1 0) +
    8 * (cond f.psh 1 0) + 16 * (cond f.ack 1 0) + 32 * (cond f.urg 1 0)

/-- The 32-bit byte swap: the value obtained by reading a big-endian
wire field with a little-endian struct cast. -/
def byteswap32 (v : Nat) : Nat :=
  v / 16777216 % 256 + 256 * (v / 65536 % 256) + 65536 * (v / 256 % 256) +
    16777216 * (v % 256)

/-- A well-formed 54-byte Ethernet+IPv4+TCP frame (ihl = 5, doff = 5,
no options, checksums zero) built from host-order field values: each
multi-byte field is laid out big-endian as on the wire.  `totLen` is
the declared IPv4 total length field. -/
def mkFrame (saddr daddr sport dport totLen : Nat) (f : TcpFlags) : List Nat :=
  [0, 0, 0, 0, 0, 0, 0, 0, 0, 0, 0, 0, 8, 0,
   69, 0, totLen / 256 % 256, totLen % 256, 0, 0, 0, 0, 64, 6, 0, 0,
   saddr / 16777216 % 256, saddr / 65536 % 256, saddr / 256 % 256, saddr % 256,
   daddr / 16777216 % 256, daddr / 65536 % 256, daddr / 256 % 256, daddr % 256,
   sport / 256 % 256, sport % 256, dport / 256 % 256, dport % 256,
   0, 0, 0, 0, 0, 0, 0, 0, 80, flagsByte f, 0, 0, 0, 0, 0, 0]

/-- Buffer content for the truncation experiment: a well-formed SYN
frame 192.168.1.100:8080 -> 10.0.0.1:80 whose headers declare
14 + 20 + 20 = 54 bytes. -/
def c6_buf : List Nat := mkFrame 3232235876 167772161 8080 80 40 synF

/-- Buffer content for the negative-payload experiment: a FIN frame
192.168.1.100:8080 -> 10.0.0.1:80 whose IPv4 total length field says
20 although the two headers alone occupy 40 bytes, so the computed
payload length is -20. -/
def c7_buf : List Nat := mkFrame 3232235876 167772161 8080 80 20 finF

/-- A table holding the sample flow in `ESTABLISHED`. -/
def estTable : Table := Table.set Table.empty sampleKey TcpState.ESTABLISHED

/-- Reading back a stored state: a `currentState` other than `CLOSED`
can only come from an actual table entry. -/
lemma currentState_eq_some (t : Table) (k : ConnectionID) (s : TcpState)
    (hs : s ≠ TcpState.CLOSED) (h : currentState t k = s) : t.find k = some s := by
  unfold currentState at h
  cases hfind : t.find k with
  | none =>
      rw [hfind] at h
      have h2 : TcpState.CLOSED = s := h
      exact absurd h2.symm hs
  | some s0 =>
      rw [hfind] at h
      have h2 : s0 = s := h
      exact congrArg some h2

/-- A `set` leaves every key either untouched or holding the written
state. -/
lemma set_find_cases (t : Table) (key k : ConnectionID) (s : TcpState) :
    (t.set key s) k = t k ∨ (t.set key s) k = some s := by
  unfold Table.set
  split_ifs <;> simp

/-- An `erase` leaves every key either untouched or absent. -/
lemma erase_find_cases (t : Table) (key k : ConnectionID) :
    (t.erase key) k = t k ∨ (t.erase key) k = none := by
  unfold Table.erase
  split_ifs <;> simp

/-- Case analysis on the value `process_tcp_packet` may leave at any
key: either the key is untouched, or erased, or set to one of the
states a reachable rule writes.  `CLOSED` is never written,
`CLOSE_WAIT` is never written (the rule at tcp_analyzer.cpp line 422
that would write it repeats the condition of the rule at line 338 and
is dead code), and `LAST_ACK` is written only when the key already
held `CLOSE_WAIT`. -/
lemma process_fst_spec (t : Table) (key : ConnectionID) (tcp : TcpFlags) (dl : Int)
    (k : ConnectionID) :
    (process_tcp_packet t key tcp dl).1 k = t k ∨
    (process_tcp_packet t key tcp dl).1 k = none ∨
    ∃ s, (process_tcp_packet t key tcp dl).1 k = some s ∧
      s ≠ TcpState.CLOSED ∧ s ≠ TcpState.CLOSE_WAIT ∧
      (s = TcpState.LAST_ACK → t.find key = some TcpState.CLOSE_WAIT) := by
  generalize hv : (process_tcp_packet t key tcp dl).1 = tv
  simp only [process_tcp_packet] at hv
  by_cases c1 : tcp.rst = true
  · rw [if_pos c1] at hv
    rw [← hv]
    rcases erase_find_cases t key k with h | h
    · exact Or.inl h
    · exact Or.inr (Or.inl h)
  rw [if_neg c1] at hv
  by_cases c2 : currentState t key = TcpState.CLOSED ∧ tcp.syn = true ∧ tcp.ack = false
  · rw [if_pos c2] at hv
    rw [← hv]
    rcases set_find_cases t key k TcpState.SYN_SENT with h | h
    · exact Or.inl h
    · exact Or.inr (Or.inr ⟨_, h, by simp, by simp, by simp⟩)
  rw [if_neg c2] at hv
  by_cases c3 : currentState t key = TcpState.SYN_SENT ∧ tcp.syn = true ∧ tcp.ack = true
  · rw [if_pos c3] at hv
    rw [← hv]
    rcases set_find_cases t key k TcpState.ESTABLISHED with h | h
    · exact Or.inl h
    · exact Or.inr (Or.inr ⟨_, h, by simp, by simp, by simp⟩)
  rw [if_neg c3] at hv
  by_cases c4 : currentState t key = TcpState.SYN_SENT ∧ tcp.ack = true ∧
      tcp.syn = false ∧ tcp.fin = false
  · rw [if_pos c4] at hv
    rw [← hv]
    rcases set_find_cases t key k TcpState.ESTABLISHED with h | h
    · exact Or.inl h
    · exact Or.inr (Or.inr ⟨_, h, by simp, by simp, by simp⟩)
  rw [if_neg c4] at hv
  by_cases c5 : currentState t key = TcpState.ESTABLISHED ∧ dl > 0
  · rw [if_pos c5] at hv
    rw [← hv]
    exact Or.inl rfl
  rw [if_neg c5] at hv
  by_cases c6 : currentState t key = TcpState.ESTABLISHED ∧ tcp.fin = true
  · rw [if_pos c6] at hv
    rw [← hv]
    rcases set_find_cases t key k TcpState.FIN_WAIT_1 with h | h
    · exact Or.inl h
    · exact Or.inr (Or.inr ⟨_, h, by simp, by simp, by simp⟩)
  rw [if_neg c6] at hv
  by_cases c7 : currentState t key = TcpState.FIN_WAIT_1 ∧ tcp.ack = true ∧ tcp.fin = false
  · rw [if_pos c7] at hv
    rw [← hv]
    rcases set_find_cases t key k TcpState.FIN_WAIT_2 with h | h
    · exact Or.inl h
    · exact Or.inr (Or.inr ⟨_, h, by simp, by simp, by simp⟩)
  rw [if_neg c7] at hv
  by_cases c8 : currentState t key = TcpState.FIN_WAIT_1 ∧ tcp.fin = true
  · rw [if_pos c8] at hv
    rw [← hv]
    rcases set_find_cases t key k TcpState.CLOSING with h | h
    · exact Or.inl h
    · exact Or.inr (Or.inr ⟨_, h, by simp, by simp, by simp⟩)
  rw [if_neg c8] at hv
  by_cases c9 : currentState t key = TcpState.FIN_WAIT_2 ∧ tcp.fin = true
  · rw [if_pos c9] at hv
    rw [← hv]
    rcases set_find_cases t key k TcpState.TIME_WAIT with h | h
    · exact Or.inl h
    · exact Or.inr (Or.inr ⟨_, h, by simp, by simp, by simp⟩)
  rw [if_neg c9] at hv
  by_cases c10 : currentState t key = TcpState.TIME_WAIT ∧ tcp.ack = true
  · rw [if_pos c10] at hv
    rw [← hv]
    rcases erase_find_cases t key k with h | h
    · exact Or.inl h
    · exact Or.inr (Or.inl h)
  rw [if_neg c10] at hv
  by_cases c11 : currentState t key = TcpState.CLOSING ∧ tcp.ack = true
  · rw [if_pos c11] at hv
    rw [← hv]
    rcases erase_find_cases t key k with h | h
    · exact Or.inl h
    · exact Or.inr (Or.inl h)
  rw [if_neg c11] at hv
  rw [if_neg c6] at hv
  by_cases c13 : currentState t key = TcpState.CLOSE_WAIT ∧ tcp.fin = true
  · rw [if_pos c13] at hv
    rw [← hv]
    rcases set_find_cases t key k TcpState.LAST_ACK with h | h
    · exact Or.inl h
    · exact Or.inr (Or.inr ⟨_, h, by simp, by simp,
        fun _ => currentState_eq_some t key TcpState.CLOSE_WAIT (by simp) c13.1⟩)
  rw [if_neg c13] at hv
  by_cases c14 : currentState t key = TcpState.LAST_ACK ∧ tcp.ack = true
  · rw [if_pos c14] at hv
    rw [← hv]
    rcases erase_find_cases t key k with h | h
    · exact Or.inl h
    · exact Or.inr (Or.inl h)
  rw [if_neg c14] at hv
  rw [← hv]
  exact Or.inl rfl

/-- The table after a packet sequence only depends on the table after
the first step. -/
lemma runPackets_fst_cons (t : Table) (p : Packet) (ps : List Packet) :
    (runPackets t (p :: ps)).1 =
      (runPackets (process_tcp_packet t p.key p.flags p.data_len).1 ps).1 := rfl

/-- Absence of `CLOSED` entries is preserved by any packet sequence. -/
lemma runPackets_no_closed (t : Table) (ht : ∀ k, t k ≠ some TcpState.CLOSED)
    (ps : List Packet) : ∀ k, (runPackets t ps).1 k ≠ some TcpState.CLOSED := by
  induction ps generalizing t with
  | nil => exact ht
  | cons p ps ih =>
      rw [runPackets_fst_cons]
      apply ih
      intro k
      rcases process_fst_spec t p.key p.flags p.data_len k with h | h | ⟨s, h, hs, _, _⟩
      · rw [h]; exact ht k
      · rw [h]; simp
      · rw [h]; simp [hs]

/-- Absence of `CLOSE_WAIT` and `LAST_ACK` entries is preserved by any
packet sequence: the only rule writing `CLOSE_WAIT` is dead code, and
the rule writing `LAST_ACK` needs a pre-existing `CLOSE_WAIT` entry. -/
lemma runPackets_no_closewait (t : Table)
    (ht : ∀ k, t k ≠ some TcpState.CLOSE_WAIT ∧ t k ≠ some TcpState.LAST_ACK)
    (ps : List Packet) :
    ∀ k, (runPackets t ps).1 k ≠ some TcpState.CLOSE_WAIT ∧
      (runPackets t ps).1 k ≠ some TcpState.LAST_ACK := by
  induction ps generalizing t with
  | nil => exact ht
  | cons p ps ih =>
      rw [runPackets_fst_cons]
      apply ih
      intro k
      rcases process_fst_spec t p.key p.flags p.data_len k with h | h | ⟨s, h, _, hcw, hla⟩
      · rw [h]; exact ht k
      · rw [h]; simp
      · rw [h]
        constructor
        · simp [hcw]
        · intro hc
          have hs : s = TcpState.LAST_ACK := by injection hc
          exact absurd (hla hs) (ht p.key).1

/-- C1 (counterexample): on the 7-packet happy-path control sequence
the tracker does not emit the claimed event order
`Syn, SynAck, Ack, Fin, Ack, Fin, Ack`: the third handshake ACK (a
plain ACK while the flow is already `ESTABLISHED`, with no payload)
matches no rule of `process_tcp_packet` and emits nothing. -/
theorem happy_path_event_order_counterexample :
    (runPackets Table.empty (happyPath sampleKey)).2 ≠
      [Reason.Syn, Reason.SynAck, Reason.Ack, Reason.Fin, Reason.Ack, Reason.Fin,
       Reason.Ack] := by decide

/-- C1 (amended): for every flow key, running the happy-path sequence
SYN, SYN/ACK, ACK, FIN, ACK, FIN, ACK from an empty table ends with no
entry for that key and emits exactly the 6 non-Data events
`Syn, SynAck, Fin, Ack, Fin, Ack`; the third handshake ACK matches no
rule and emits no event. -/
theorem happy_path_lifecycle (key : ConnectionID) :
    (runPackets Table.empty (happyPath key)).1.find key = none ∧
    (runPackets Table.empty (happyPath key)).2 =
      [Reason.Syn, Reason.SynAck, Reason.Fin, Reason.Ack, Reason.Fin, Reason.Ack] := by
  simp [happyPath, runPackets, process_tcp_packet, currentState, Table.empty, Table.find,
        Table.set, Table.erase, synF, synAckF, ackF, finF]

/-- C2: canonicalization is commutative: `make_canonical_id` gives the
same flow key for the two directions of a flow. -/
theorem make_canonical_id_comm (ip1 port1 ip2 port2 : Nat) :
    make_canonical_id ip1 port1 ip2 port2 = make_canonical_id ip2 port2 ip1 port1 := by
  unfold make_canonical_id
  split_ifs <;> first
    | rfl
    | (simp only [ConnectionID.mk.injEq]; omega)

/-- C3: RST dominance: whatever the table and the current state of the
key (including the implicit `CLOSED` of an absent key), a packet with
rst set leaves no entry for that key; on an already-absent key the
whole table is unchanged, so a second RST is a harmless no-op. -/
theorem rst_dominance (t : Table) (key : ConnectionID) (tcp : TcpFlags) (dl : Int)
    (h : tcp.rst = true) :
    (process_tcp_packet t key tcp dl).1.find key = none ∧
    (t.find key = none → (process_tcp_packet t key tcp dl).1 = t) := by
  simp only [process_tcp_packet]
  rw [if_pos h]
  constructor
  · simp [Table.erase, Table.find]
  · intro h0
    funext j
    simp only [Table.erase]
    split_ifs with hj
    · rw [hj]; exact h0.symm
    · rfl

/-- C3 (witness): the theorem applied to a RST on the empty table. -/
theorem rst_dominance_witness :
    rstF.rst = true ∧
    ((process_tcp_packet Table.empty sampleKey rstF 0).1.find sampleKey = none ∧
     (Table.empty.find sampleKey = none →
       (process_tcp_packet Table.empty sampleKey rstF 0).1 = Table.empty)) :=
  ⟨rfl, rst_dominance Table.empty sampleKey rstF 0 rfl⟩

/-- C4: a FIN with rst clear and no payload seen in `ESTABLISHED`
always goes to `FIN_WAIT_1` with a Fin event (the later
`ESTABLISHED` + fin rule targeting `CLOSE_WAIT` never fires), and
consequently no run from the empty table ever stores `CLOSE_WAIT` or
`LAST_ACK` in the table. -/
theorem established_fin_to_finwait1 :
    (∀ (t : Table) (key : ConnectionID) (tcp : TcpFlags) (dl : Int),
        t.find key = some TcpState.ESTABLISHED → tcp.fin = true → tcp.rst = false →
        dl ≤ 0 →
        (process_tcp_packet t key tcp dl).1.find key = some TcpState.FIN_WAIT_1 ∧
        (process_tcp_packet t key tcp dl).2 = some Reason.Fin) ∧
    (∀ (ps : List Packet) (k : ConnectionID),
        (runPackets Table.empty ps).1 k ≠ some TcpState.CLOSE_WAIT ∧
        (runPackets Table.empty ps).1 k ≠ some TcpState.LAST_ACK) := by
  constructor
  · intro t key tcp dl h hfin hrst hdl
    have hc : currentState t key = TcpState.ESTABLISHED := by
      unfold currentState
      rw [h]
    have hnd : ¬ (currentState t key = TcpState.ESTABLISHED ∧ dl > 0) := by
      rw [hc]
      simp
      omega
    simp only [process_tcp_packet]
    rw [if_neg (by simp [hrst]), if_neg (by simp [hc]), if_neg (by simp [hc]),
        if_neg (by simp [hc]), if_neg hnd, if_pos ⟨hc, hfin⟩]
    constructor
    · simp [Table.set, Table.find]
    · rfl
  · intro ps k
    exact runPackets_no_closewait Table.empty (by intro k; simp [Table.empty]) ps k

/-- C4 (witness): the theorem applied to a FIN on an `ESTABLISHED`
sample flow. -/
theorem established_fin_to_finwait1_witness :
    estTable.find sampleKey = some TcpState.ESTABLISHED ∧
    finF.fin = true ∧ finF.rst = false ∧ (0 : Int) ≤ 0 ∧
    (process_tcp_packet estTable sampleKey finF 0).1.find sampleKey =
      some TcpState.FIN_WAIT_1 :=
  ⟨by decide, rfl, rfl, by decide,
   (established_fin_to_finwait1.1 estTable sampleKey finF 0 (by decide) rfl rfl
     (by decide)).1⟩

/-- C5: a packet matched by no transition rule is a no-op: the table
is returned unchanged (hence the entry's state is unchanged), no event
is emitted, and repeating the same unmatched input gives the same
result. -/
theorem unmatched_input_noop (t : Table) (key : ConnectionID) (tcp : TcpFlags) (dl : Int)
    (h : ¬ rules_match (currentState t key) tcp dl) :
    process_tcp_packet t key tcp dl = (t, none) ∧
    process_tcp_packet (process_tcp_packet t key tcp dl).1 key tcp dl = (t, none) := by
  have h1 : process_tcp_packet t key tcp dl = (t, none) := by
    unfold rules_match at h
    simp only [not_or] at h
    obtain ⟨n1, n2, n3, n4, n5, n6, n7, n8, n9, n10, n11, n12, n13⟩ := h
    simp only [process_tcp_packet]
    rw [if_neg n1, if_neg n2, if_neg n3, if_neg n4, if_neg n5, if_neg n6, if_neg n7,
        if_neg n8, if_neg n9, if_neg n10, if_neg n11, if_neg n6, if_neg n12, if_neg n13]
  exact ⟨h1, by rw [h1]; exact h1⟩

/-- C5 (witness): the theorem applied to a plain ACK with zero payload
on an `ESTABLISHED` flow, an input no rule matches. -/
theorem unmatched_input_noop_witness :
    ¬ rules_match (currentState estTable sampleKey) ackF 0 ∧
    (process_tcp_packet estTable sampleKey ackF 0 = (estTable, none) ∧
     process_tcp_packet (process_tcp_packet estTable sampleKey ackF 0).1 sampleKey ackF 0 =
       (estTable, none)) :=
  ⟨by decide, unmatched_input_noop estTable sampleKey ackF 0 (by decide)⟩

/-- C6: the decoder performs no truncation check at all: the result of
handling a frame is independent of the received length `recv`
returned, and handling the 54-byte-headers SYN frame `c6_buf` with a
received length of only 10 bytes still parses the stale buffer bytes
and mutates the connection table (no `TruncatedPacket` error exists
anywhere in the program). -/
theorem truncated_frame_processed :
    (∀ (t : Table) (n m : Int), handle_frame t c6_buf n = handle_frame t c6_buf m) ∧
    (handle_frame Table.empty c6_buf 10).2 = some Reason.Syn ∧
    (handle_frame Table.empty c6_buf 10).1.find sampleKey = some TcpState.SYN_SENT :=
  ⟨fun _ _ _ => rfl, by decide, by decide⟩

/-- C7: a frame whose computed payload length is negative (`c7_buf`
declares an IPv4 total length of 20 against 40 bytes of headers, so
`data_len = -20`) is not rejected: no `InconsistentLength` error
exists, and the frame is still processed by the state machine, moving
the `ESTABLISHED` sample flow to `FIN_WAIT_1` on its FIN flag. -/
theorem negative_payload_processed :
    (decode_frame c7_buf).map DecodedFrame.data_len = some (-20) ∧
    (handle_frame estTable c7_buf 54).2 = some Reason.Fin ∧
    (handle_frame estTable c7_buf 54).1.find sampleKey = some TcpState.FIN_WAIT_1 :=
  ⟨by decide, by decide, by decide⟩

/-- C8 (counterexample): the decoder does not return the source IPv4
address in host byte order: for a frame carrying source address
10.0.0.1 (host-order value 167772161) the decoded `src_ip` is the
byte-swapped network-order value, not 167772161. -/
theorem decoder_ip_host_order_counterexample :
    (decode_frame (mkFrame 167772161 3232235876 8080 80 40 synF)).map
      DecodedFrame.src_ip ≠ some 167772161 := by decide

/-- C8 (amended): for every successfully decoded well-formed frame the
decoder returns the ports in host byte order and the payload length
`ip_total_length - ip_header_length - tcp_header_length`, but the IPv4
addresses in network byte order (the byte-swap of the host-order
address), exactly as `main` leaves `ip->saddr`/`ip->daddr` unswapped
while applying `ntohs` to the ports. -/
theorem decoder_field_extraction (saddr daddr sport dport totLen : Nat) (f : TcpFlags)
    (_hs : saddr < 4294967296) (_hd : daddr < 4294967296) (hsp : sport < 65536)
    (hdp : dport < 65536) (ht : totLen < 65536) :
    decode_frame (mkFrame saddr daddr sport dport totLen f) =
      some { src_ip := byteswap32 saddr, dst_ip := byteswap32 daddr,
             src_port := sport, dst_port := dport, flags := f,
             data_len := (totLen : Int) - 40 } := by
  norm_num [decode_frame, mkFrame, byteAt, readBE16, readLE32, byteswap32]
  refine ⟨by omega, by omega, ?_, by omega⟩
  rcases f with ⟨a, b, c, d, e, g⟩
  cases a <;> cases b <;> cases c <;> cases d <;> cases e <;> cases g <;> rfl

/-- C8 (witness): the amended theorem applied to the sample SYN
frame. -/
theorem decoder_field_extraction_witness :
    167772161 < 4294967296 ∧ 3232235876 < 4294967296 ∧ 8080 < 65536 ∧ 80 < 65536 ∧
    40 < 65536 ∧
    decode_frame (mkFrame 167772161 3232235876 8080 80 40 synF) =
      some { src_ip := byteswap32 167772161, dst_ip := byteswap32 3232235876,
             src_port := 8080, dst_port := 80, flags := synF,
             data_len := (40 : Int) - 40 } :=
  ⟨by decide, by decide, by decide, by decide, by decide,
   decoder_field_extraction 167772161 3232235876 8080 80 40 synF (by decide) (by decide)
     (by decide) (by decide) (by decide)⟩

/-- C9: the concrete two-packet scenario: both directions of
192.168.1.100:8080 <-> 10.0.0.1:80 canonicalize to the key with the
10.0.0.1 endpoint on the `src` (a) side, and after a SYN followed by a
SYN+ACK on that flow the table holds `ESTABLISHED` for that key. -/
theorem concrete_two_packet_scenario :
    make_canonical_id ipB 8080 ipA 80 =
      { src_ip := ipA, dst_ip := ipB, src_port := 80, dst_port := 8080 } ∧
    make_canonical_id ipA 80 ipB 8080 =
      { src_ip := ipA, dst_ip := ipB, src_port := 80, dst_port := 8080 } ∧
    (runPackets Table.empty [⟨sampleKey, synF, 0⟩, ⟨sampleKey, synAckF, 0⟩]).1.find
      sampleKey = some TcpState.ESTABLISHED :=
  ⟨by decide, by decide, by decide⟩

/-- C10: starting from the empty table, no packet sequence ever leaves
an entry holding `CLOSED`: every rule targeting `CLOSED` erases the
entry and no rule writes `CLOSED`. -/
theorem no_closed_entry_ever (ps : List Packet) (k : ConnectionID) :
    (runPackets Table.empty ps).1 k ≠ some TcpState.CLOSED :=
  runPackets_no_closed Table.empty (fun k => by simp [Table.empty]) ps k

end TcpAnalyzer
